import Mathlib

/-!
Verification development for the session-persistence subsystem of the
pimba-mvp repository.

The Python modules `utils/session_manager.py`, `utils/session_storage.py`,
`utils/cookie_session_storage.py` and `utils/url_session_storage.py` are
shallowly embedded below.  Streamlit's `st.session_state` is modelled as an
association list from key strings to runtime values (`SessionState`); the
`.sessions` directory is modelled as an association list from file names to
file contents (`Store`); wall-clock datetimes are modelled as integer
seconds.  Fallible JSON parsing is modelled by `FileContent`, which is
either a parsed JSON object (an association list of string keys to JSON
values) or raw unparseable text.
-/

set_option autoImplicit false

/-- Runtime values stored in `st.session_state` and inside parsed session
JSON objects.  `vtime` models a `datetime` (always truthy in Python, like
every `datetime` object); `vnone` models Python `None`; `vobj` models the
user-claims dictionary (string fields); `vext` models opaque runtime
objects such as the API thread kept by the bootstrap keys. -/
inductive Val where
  | vbool : Bool → Val
  | vstr : String → Val
  | vtime : Int → Val
  | vnone : Val
  | vobj : List (String × String) → Val
  | vext : Nat → Val
deriving DecidableEq, Repr

/-- Character-list prefix test, used to model `str.startswith` by a
function the kernel can evaluate. -/
def charsPrefix : List Char → List Char → Bool
  | [], _ => true
  | _ :: _, [] => false
  | c :: cs, d :: ds => c == d && charsPrefix cs ds

/-- `s.startswith(pre)` on Python strings. -/
def pyStartsWith (s pre : String) : Bool := charsPrefix pre.data s.data

/-- `s.endswith(suf)` on Python strings. -/
def pyEndsWith (s suf : String) : Bool := charsPrefix suf.data.reverse s.data.reverse

/-- Python truthiness for the modelled values: `bool(x)`. A `datetime` is
always truthy; `None` is falsy; strings and dicts are truthy when
non-empty. -/
def truthy : Val → Bool
  | .vbool b => b
  | .vstr s => !s.data.isEmpty
  | .vtime _ => true
  | .vnone => false
  | .vobj u => !u.isEmpty
  | .vext _ => true

/-- First-match association-list lookup, modelling dictionary and
directory lookup. -/
def assocLookup {α : Type} : List (String × α) → String → Option α
  | [], _ => none
  | (k, v) :: rest, key => if k = key then some v else assocLookup rest key

/-- Remove every entry under a key: models `del d[key]` and file
deletion (`Path.unlink`). -/
def eraseKey {α : Type} : List (String × α) → String → List (String × α)
  | [], _ => []
  | e :: rest, k => if e.1 = k then eraseKey rest k else e :: eraseKey rest k

/-- Overwrite the entry under a key: models `d[key] = value` and writing a
file, keeping keys unique. -/
def setKey {α : Type} (l : List (String × α)) (k : String) (v : α) : List (String × α) :=
  (k, v) :: eraseKey l k

/-- Streamlit's `st.session_state`, as a key-value map. -/
def SessionState : Type := List (String × Val)

instance : DecidableEq SessionState := by
  unfold SessionState
  infer_instance

/-- Lookup with a default, modelling `st.session_state.get(key, default)`. -/
def ssGetD (ss : SessionState) (k : String) (d : Val) : Val :=
  (assocLookup ss k).getD d

/-- String coercion used where the code calls `.startswith` on
`st.session_state.get("auth_token", "")`: the stored token is a string in
every code path that writes it; a non-string value (which would raise in
Python) is mapped to the default `""`. -/
def ssGetStrD (ss : SessionState) (k : String) : String :=
  match assocLookup ss k with
  | some (.vstr s) => s
  | _ => ""

/- Embedding of `utils/session_manager.py`. -/

/-- SESSION_TIMEOUT_MINUTES = 60, expressed in seconds. -/
def SESSION_TIMEOUT_SECONDS : Int := 3600

/-- Defaults written by `init_session`, in the order of the Python dict. -/
def sessionDefaults : List (String × Val) :=
  [("authenticated", .vbool false),
   ("auth_token", .vnone),
   ("user_info", .vnone),
   ("login_timestamp", .vnone),
   ("last_activity", .vnone)]

/-- One iteration of the `init_session` loop: set the default only when
the key is not already present in the session state. -/
def initStep (s : SessionState) (kv : String × Val) : SessionState :=
  if (assocLookup s kv.1).isSome then s else setKey s kv.1 kv.2

/-- `init_session`: for each default key, set it only when the key is not
already present in the session state. -/
def init_session (ss : SessionState) : SessionState :=
  sessionDefaults.foldl initStep ss

/-- Keys preserved by `clear_session` (`keys_to_keep`). -/
def keepKeys : List String := ["api_thread", "api_started", "api_ready"]

/-- `clear_session`: delete every key not in `keys_to_keep`, then
re-run `init_session`. -/
def clear_session (ss : SessionState) : SessionState :=
  init_session (ss.filter (fun e => keepKeys.contains e.1))

/-- `save_session`: marks the state authenticated and records token, user
info and both timestamps at the current time.  The token and user-info
arguments are the values the caller passes (strings and a claim dict in
every code path that writes them). -/
def save_session (now : Int) (ss : SessionState) (auth_token user_info : Val) : SessionState :=
  setKey (setKey (setKey (setKey (setKey ss
    "authenticated" (.vbool true))
    "auth_token" auth_token)
    "user_info" user_info)
    "login_timestamp" (.vtime now))
    "last_activity" (.vtime now)

/-- `is_session_valid`: authenticated and auth_token truthy, a login
timestamp present, and no more than 60 minutes since login.  A truthy
non-datetime login timestamp would raise in Python and is never written by
the code; it is modelled as invalid. -/
def is_session_valid (now : Int) (ss : SessionState) : Bool :=
  if !truthy (ssGetD ss "authenticated" (.vbool false)) then false
  else if !truthy (ssGetD ss "auth_token" .vnone) then false
  else
    match assocLookup ss "login_timestamp" with
    | some (.vtime t) => !(now - t > SESSION_TIMEOUT_SECONDS)
    | _ => false

/-- `update_activity`: stamps `last_activity` with the current time. -/
def update_activity (now : Int) (ss : SessionState) : SessionState :=
  setKey ss "last_activity" (.vtime now)

/-- Python's `timedelta.seconds` attribute on the difference of two
datetimes: the normalized seconds component, i.e. the total elapsed
seconds modulo 86400 (non-negative). Note this is not `total_seconds()`. -/
def timedeltaSeconds (d : Int) : Int := Int.emod d 86400

/-- Outcome of the remote `GET /users/me` re-check: an HTTP status code,
or a raised `requests.RequestException` (network error / timeout). -/
inductive RemoteResult where
  | status : Nat → RemoteResult
  | netError : RemoteResult
deriving DecidableEq, Repr

/-- Result of `validate_session`: the returned boolean, the session state
after the call, and whether the backend was actually contacted (i.e.
whether control reached the `requests.get` call). -/
structure VOut where
  ok : Bool
  state : SessionState
  contacted : Bool
deriving DecidableEq

/-- `validate_session`: local validity check (clearing the session if it
fails while `authenticated` is set), dev-mock bypass, the 5-minute
backend-validation throttle implemented with `timedelta.seconds`, and the
remote re-check whose non-200 statuses clear the session while request
exceptions are swallowed (fail open). -/
def validate_session (now : Int) (ss : SessionState) (remote : RemoteResult) : VOut :=
  if !is_session_valid now ss then
    if truthy (ssGetD ss "authenticated" .vnone) then ⟨false, clear_session ss, false⟩
    else ⟨false, ss, false⟩
  else
    let ss := update_activity now ss
    if pyStartsWith (ssGetStrD ss "auth_token") "dev-mock-" then ⟨true, ss, false⟩
    else
      let due :=
        match assocLookup ss "last_backend_validation" with
        | some (.vtime lv) => !(timedeltaSeconds (now - lv) < 300)
        | _ => true
      if !due then ⟨true, ss, false⟩
      else
        match remote with
        | .status 200 => ⟨true, setKey ss "last_backend_validation" (.vtime now), true⟩
        | .status _ => ⟨false, clear_session ss, true⟩
        | .netError => ⟨true, ss, true⟩

/- Basic lemmas about the association-list operations. -/

theorem assocLookup_eraseKey_self {α : Type} (l : List (String × α)) (k : String) :
    assocLookup (eraseKey l k) k = none := by
  induction l with
  | nil => rfl
  | cons e rest ih =>
    by_cases he : e.1 = k
    · simpa [eraseKey, he] using ih
    · simpa [eraseKey, he, assocLookup] using ih

theorem assocLookup_eraseKey_ne {α : Type} (l : List (String × α)) (k k' : String)
    (h : k ≠ k') : assocLookup (eraseKey l k) k' = assocLookup l k' := by
  induction l with
  | nil => rfl
  | cons e rest ih =>
    simp only [eraseKey, assocLookup]
    by_cases he : e.1 = k
    · have he' : ¬ e.1 = k' := fun hh => h (by rw [← he, hh])
      rw [if_pos he, ih, if_neg he']
    · rw [if_neg he]
      simp only [assocLookup]
      rw [ih]

theorem assocLookup_setKey {α : Type} (l : List (String × α)) (k k' : String) (v : α) :
    assocLookup (setKey l k v) k' = if k = k' then some v else assocLookup l k' := by
  by_cases h : k = k'
  · simp [setKey, assocLookup, h]
  · simp [setKey, assocLookup, h, assocLookup_eraseKey_ne l k k' h]

/- Embedding of `utils/session_storage.py`. -/

/-- Contents of one file in the `.sessions` directory: either text that
`json.load` parses to an object, or raw text that fails to parse
(`json.JSONDecodeError`).  A stored ISO-8601 timestamp that
`datetime.fromisoformat` accepts is modelled as an already-parsed
`Val.vtime`; any other value under a timestamp key models a `ValueError`. -/
inductive FileContent where
  | json : List (String × Val) → FileContent
  | raw : String → FileContent
deriving DecidableEq, Repr

/-- The `.sessions` directory: file names mapped to contents. -/
def Store : Type := List (String × FileContent)

instance : DecidableEq Store := by
  unfold Store
  infer_instance

/-- SESSION_EXPIRY_DAYS = 7, expressed in seconds. -/
def SESSION_EXPIRY_SECONDS : Int := 604800

/-- `_get_session_file`: deterministic file name for an identifier. -/
def sessionFileName (session_id : String) : String := session_id ++ ".json"

/-- The `session_data` dict written by `save_session_persistent`, in the
order the Python dict literal lists its keys. -/
def sessionDataDict (now : Int) (auth_token : String) (user_info : List (String × String)) :
    List (String × Val) :=
  [("token", .vstr auth_token),
   ("user", .vobj user_info),
   ("created_at", .vtime now),
   ("expires_at", .vtime (now + SESSION_EXPIRY_SECONDS))]

/-- `save_session_persistent`: writes the session dict to the
identifier's file, overwriting any existing content. -/
def save_session_persistent (now : Int) (store : Store) (session_id auth_token : String)
    (user_info : List (String × String)) : Store :=
  setKey store (sessionFileName session_id) (.json (sessionDataDict now auth_token user_info))

/-- `load_session_persistent`: returns the dict
`\x7b"token": ..., "user": ...\x7d` from the identifier's file, or `none`
when the file is missing, expired (deleting it), or corrupted — a parse
failure of the JSON, a missing `expires_at`/`token`/`user` key, or an
unparseable `expires_at` (deleting the file in each failure case).  The
second component is the directory after the call. -/
def load_session_persistent (now : Int) (store : Store) (session_id : String) :
    Option (List (String × Val)) × Store :=
  let name := sessionFileName session_id
  match assocLookup store name with
  | none => (none, store)
  | some (.raw _) => (none, eraseKey store name)
  | some (.json d) =>
    match assocLookup d "expires_at" with
    | some (.vtime e) =>
      if now > e then (none, eraseKey store name)
      else
        match assocLookup d "token", assocLookup d "user" with
        | some tok, some u => (some [("token", tok), ("user", u)], store)
        | _, _ => (none, eraseKey store name)
    | _ => (none, eraseKey store name)

/-- `delete_session_persistent`: removes the identifier's file when
present; no error when absent. -/
def delete_session_persistent (store : Store) (session_id : String) : Store :=
  eraseKey store (sessionFileName session_id)

/-- Whether `cleanup_expired_sessions` keeps a file: it must parse, carry
a parseable `expires_at`, and be unexpired; every failure (bare `except`)
deletes the file. -/
def cleanupKeeps (now : Int) (c : FileContent) : Bool :=
  match c with
  | .raw _ => false
  | .json d =>
    match assocLookup d "expires_at" with
    | some (.vtime e) => !(now > e)
    | _ => false

/-- `cleanup_expired_sessions`: sweeps every `*.json` file of the
directory, deleting expired and corrupted ones. -/
def cleanup_expired_sessions (now : Int) (store : Store) : Store :=
  store.filter (fun e => !(pyEndsWith e.1 ".json") || cleanupKeeps now e.2)

/-- Full-record parse used to state the atomicity invariant: a stored
Session Record is fully present when the file parses and all four fields
are populated (timestamps parseable). -/
def parseStoredSession : FileContent → Option (Val × Val × Int × Int)
  | .raw _ => none
  | .json d =>
    match assocLookup d "token", assocLookup d "user",
          assocLookup d "created_at", assocLookup d "expires_at" with
    | some t, some u, some (.vtime c), some (.vtime e) => some (t, u, c, e)
    | _, _, _, _ => none

/-- Serialization of one JSON value, as `json.dump` renders it (string
escapes are not needed for the identifiers and claims in scope). -/
def serializeVal : Val → String
  | .vstr s => "\"" ++ s ++ "\""
  | .vtime t => "\"" ++ toString t ++ "\""
  | .vbool b => if b then "true" else "false"
  | .vnone => "null"
  | .vobj fs =>
      "\x7b" ++ String.intercalate ", " (fs.map (fun p => "\"" ++ p.1 ++ "\": \"" ++ p.2 ++ "\"")) ++ "\x7d"
  | .vext n => toString n

/-- Serialization of the session dict, as `json.dump(session_data, f)`
renders it. -/
def serializeDict (d : List (String × Val)) : String :=
  "\x7b" ++ String.intercalate ", " (d.map (fun p => "\"" ++ p.1 ++ "\": " ++ serializeVal p.2)) ++ "\x7d"

/-- The string take used to form write prefixes. -/
def takeChars (n : Nat) (s : String) : String := String.mk (s.data.take n)

/-- States of the identifier's file that a concurrent reader can observe
during `save_session_persistent`: `open(session_file, 'w')` truncates the
file in place (the `k = 0` state is the empty file), `json.dump` then
writes the serialized object incrementally (each proper prefix is not
valid JSON), and the final state is the complete object.  No temporary
file or rename is involved in the Python code. -/
def saveWriteTrace (now : Int) (auth_token : String) (user_info : List (String × String)) :
    List FileContent :=
  let s := serializeDict (sessionDataDict now auth_token user_info)
  ((List.range s.length).map (fun k => FileContent.raw (takeChars k s)))
    ++ [FileContent.json (sessionDataDict now auth_token user_info)]

/- Embedding of `utils/cookie_session_storage.py`. -/

/-- One file of the `.sessions` directory as seen by the cookie-based
restore path: its stem (the session identifier — every file there is
named `identifier.json`), its contents, and its modification time. -/
structure CFile where
  sid : String
  content : FileContent
  mtime : Int
deriving DecidableEq, Repr

/-- Insertion step for sorting by modification time, newest first. -/
def insertByMtime (f : CFile) : List CFile → List CFile
  | [] => [f]
  | g :: rest => if f.mtime ≥ g.mtime then f :: g :: rest else g :: insertByMtime f rest

/-- `sorted(SESSION_DIR.glob("*.json"), key=mtime, reverse=True)`. -/
def sortByMtimeDesc (l : List CFile) : List CFile := l.foldr insertByMtime []

/-- `_get_session_id_from_cookie`: returns the cached identifier when one
is present in `st.session_state`, and otherwise mints and caches a fresh
`temp_`-prefixed identifier from `uuid.uuid4().hex[:12]`.  The
`browserCookie` argument is the browser-side `pimba_sid` cookie: the
injected JavaScript reads and writes it in the browser, but no Python
statement of the function reads it back, so it does not occur in the
body. -/
def get_session_id_from_cookie (browserCookie : Option String) (ss : SessionState)
    (uuidHex : String) : Val × SessionState :=
  match assocLookup ss "cookie_session_id" with
  | some v => (v, ss)
  | none =>
      let temp_id := "temp_" ++ takeChars 12 uuidHex
      (.vstr temp_id, setKey ss "cookie_session_id" (.vstr temp_id))

/-- Whether the restore loop accepts a file: the JSON parses, carries a
parseable `expires_at` that has not passed, and has `token` and `user`
keys (a missing key raises `KeyError`, which the loop catches and treats
as corruption). -/
def restoreAccepts (now : Int) (c : FileContent) : Bool :=
  match c with
  | .raw _ => false
  | .json d =>
    match assocLookup d "expires_at" with
    | some (.vtime e) =>
      if now > e then false
      else (assocLookup d "token").isSome && (assocLookup d "user").isSome
    | _ => false

/-- The `for session_file in session_files` loop of
`restore_auth_cookie_storage`: expired and corrupted files are deleted and
skipped; the first accepted file is installed with `save_session` and its
stem is cached as `cookie_session_id`.  Returns the flag, the session
state, and the directory files remaining after the loop. -/
def restoreLoop (now : Int) (ss : SessionState) :
    List CFile → Bool × SessionState × List CFile
  | [] => (false, ss, [])
  | f :: rest =>
    match f.content with
    | .raw _ => restoreLoop now ss rest
    | .json d =>
      match assocLookup d "expires_at" with
      | some (.vtime e) =>
        if now > e then restoreLoop now ss rest
        else
          match assocLookup d "token", assocLookup d "user" with
          | some tok, some u =>
            (true, setKey (save_session now ss tok u) "cookie_session_id" (.vstr f.sid), f :: rest)
          | _, _ => restoreLoop now ss rest
      | _ => restoreLoop now ss rest

/-- `restore_auth_cookie_storage`: returns `True` immediately when already
authenticated; otherwise scans all session files, most recently modified
first, and hydrates from the first valid one — whatever identifier that
file is stored under. -/
def restore_auth_cookie_storage (now : Int) (ss : SessionState) (dir : List CFile) :
    Bool × SessionState × List CFile :=
  if truthy (ssGetD ss "authenticated" (.vbool false)) then (true, ss, dir)
  else restoreLoop now ss (sortByMtimeDesc dir)

/- Embedding of `utils/url_session_storage.py`. -/

/-- `st.query_params`, as a key-value map of strings. -/
def QueryParams : Type := List (String × String)

instance : DecidableEq QueryParams := by
  unfold QueryParams
  infer_instance

/-- `_get_session_file` of the URL variant: file named `sess_<id>.json`. -/
def urlSessionFileName (session_id : String) : String := "sess_" ++ session_id ++ ".json"

/-- Result of `clear_auth_url_session`: session state, query params and
directory after the call. -/
structure UrlClearOut where
  state : SessionState
  params : QueryParams
  store : Store
deriving DecidableEq

/-- `clear_auth_url_session`: clears the Streamlit session, deletes the
resolved identifier's file when a `sid` query parameter is present (no
error when the file is absent), and drops `sid` from the URL. -/
def clear_auth_url_session (ss : SessionState) (qp : QueryParams) (store : Store) :
    UrlClearOut :=
  let ss' := clear_session ss
  let store' :=
    match assocLookup qp "sid" with
    | some sid => eraseKey store (urlSessionFileName sid)
    | none => store
  let qp' :=
    match assocLookup qp "sid" with
    | some _ => eraseKey qp "sid"
    | none => qp
  ⟨ss', qp', store'⟩

theorem assocLookup_filter_key {α : Type} (p : String → Bool) (l : List (String × α))
    (k : String) :
    assocLookup (l.filter (fun e => p e.1)) k =
      if p k then assocLookup l k else none := by
  induction l with
  | nil => simp [assocLookup]
  | cons e rest ih =>
    by_cases hp : p e.1
    · by_cases he : e.1 = k
      · subst he
        simp [List.filter, hp, assocLookup, ih]
      · simp only [List.filter, hp, assocLookup, if_neg he]
        exact ih
    · by_cases he : e.1 = k
      · subst he
        simp only [List.filter, hp, Bool.false_eq_true, not_false_eq_true,
          List.filter_cons_of_neg, assocLookup, if_neg]
        simpa [hp] using ih
      · simp only [List.filter, hp, assocLookup]
        rw [ih]
        simp [assocLookup, he]

theorem foldl_initStep_lookup_ne (ds : List (String × Val)) (ss : SessionState) (k : String)
    (h : ∀ kv ∈ ds, kv.1 ≠ k) :
    assocLookup (ds.foldl initStep ss) k = assocLookup ss k := by
  induction ds generalizing ss with
  | nil => rfl
  | cons d rest ih =>
    have hd : d.1 ≠ k := h d (by simp)
    have hrest : ∀ kv ∈ rest, kv.1 ≠ k := fun kv hkv => h kv (by simp [hkv])
    simp only [List.foldl]
    rw [ih _ hrest]
    unfold initStep
    by_cases hc : (assocLookup ss d.1).isSome
    · rw [if_pos hc]
    · rw [if_neg hc, assocLookup_setKey, if_neg hd]

theorem foldl_initStep_sets (ds : List (String × Val)) (ss : SessionState)
    (hnd : (ds.map Prod.fst).Nodup)
    (hnone : ∀ kv ∈ ds, assocLookup ss kv.1 = none) :
    ∀ kv ∈ ds, assocLookup (ds.foldl initStep ss) kv.1 = some kv.2 := by
  induction ds generalizing ss with
  | nil => intro kv hkv; cases hkv
  | cons d rest ih =>
    intro kv hkv
    have hstep : initStep ss d = setKey ss d.1 d.2 := by
      unfold initStep
      rw [hnone d (by simp), if_neg (by simp)]
    have hndrest : (rest.map Prod.fst).Nodup := (List.nodup_cons.mp hnd).2
    have hdnot : d.1 ∉ rest.map Prod.fst := (List.nodup_cons.mp hnd).1
    rcases List.mem_cons.mp hkv with rfl | hmem
    · simp only [List.foldl, hstep]
      rw [foldl_initStep_lookup_ne rest (setKey ss kv.1 kv.2) kv.1
        (fun kv' hkv' => fun hc => hdnot (hc ▸ List.mem_map_of_mem Prod.fst hkv'))]
      rw [assocLookup_setKey, if_pos rfl]
    · simp only [List.foldl, hstep]
      refine ih (setKey ss d.1 d.2) hndrest ?_ kv hmem
      intro kv' hkv'
      rw [assocLookup_setKey]
      have : ¬ d.1 = kv'.1 := fun hc => hdnot (hc ▸ List.mem_map_of_mem Prod.fst hkv')
      rw [if_neg this]
      exact hnone kv' (by simp [hkv'])

theorem clear_session_lookup_keep (ss : SessionState) (k : String)
    (h : keepKeys.contains k = true) :
    assocLookup (clear_session ss) k = assocLookup ss k := by
  have hk : k = "api_thread" ∨ k = "api_started" ∨ k = "api_ready" := by
    simpa [keepKeys] using h
  unfold clear_session init_session
  rw [foldl_initStep_lookup_ne _ _ _ ?hne]
  case hne =>
    intro kv hkv
    rcases hk with rfl | rfl | rfl <;> fin_cases hkv <;> decide
  rw [assocLookup_filter_key, if_pos h]

theorem clear_session_lookup_default (ss : SessionState) :
    ∀ kv ∈ sessionDefaults, assocLookup (clear_session ss) kv.1 = some kv.2 := by
  unfold clear_session init_session
  apply foldl_initStep_sets
  · decide
  · intro kv hkv
    rw [assocLookup_filter_key]
    have hc : keepKeys.contains kv.1 = false := by fin_cases hkv <;> decide
    rw [hc]
    simp

theorem clear_session_lookup_other (ss : SessionState) (k : String)
    (hkeep : keepKeys.contains k = false)
    (hdef : ∀ kv ∈ sessionDefaults, kv.1 ≠ k) :
    assocLookup (clear_session ss) k = none := by
  unfold clear_session init_session
  rw [foldl_initStep_lookup_ne _ _ _ hdef, assocLookup_filter_key, hkeep]
  simp

theorem is_session_valid_update_activity (now t : Int) (ss : SessionState) :
    is_session_valid now (update_activity t ss) = is_session_valid now ss := by
  unfold is_session_valid update_activity ssGetD
  simp only [assocLookup_setKey]
  simp

/-- Example session state used to witness the `clear_session` frame
property: one bootstrap key, one unrelated key, and a set auth flag. -/
def ssBootstrapExample : SessionState :=
  [("api_ready", Val.vbool true), ("junk", Val.vstr "x"), ("authenticated", Val.vbool true)]

/-- C10: `clear_session` deletes every key except the API bootstrap keys
`api_thread`, `api_started`, `api_ready` (whose values are unchanged) and
then re-establishes the five auth defaults, with `authenticated = False`
and `auth_token`, `user_info`, `login_timestamp`, `last_activity` all
`None`. -/
theorem clear_session_frame (ss : SessionState) (k : String) :
    (keepKeys.contains k = true → assocLookup (clear_session ss) k = assocLookup ss k)
    ∧ assocLookup (clear_session ss) "authenticated" = some (Val.vbool false)
    ∧ assocLookup (clear_session ss) "auth_token" = some Val.vnone
    ∧ assocLookup (clear_session ss) "user_info" = some Val.vnone
    ∧ assocLookup (clear_session ss) "login_timestamp" = some Val.vnone
    ∧ assocLookup (clear_session ss) "last_activity" = some Val.vnone
    ∧ (keepKeys.contains k = false → (∀ kv ∈ sessionDefaults, kv.1 ≠ k) →
        assocLookup (clear_session ss) k = none) := by
  refine ⟨fun h => clear_session_lookup_keep ss k h,
    clear_session_lookup_default ss ("authenticated", Val.vbool false) (by decide),
    clear_session_lookup_default ss ("auth_token", Val.vnone) (by decide),
    clear_session_lookup_default ss ("user_info", Val.vnone) (by decide),
    clear_session_lookup_default ss ("login_timestamp", Val.vnone) (by decide),
    clear_session_lookup_default ss ("last_activity", Val.vnone) (by decide),
    fun h1 h2 => clear_session_lookup_other ss k h1 h2⟩

/-- Witness for the C10 frame property at a concrete session state. -/
theorem clear_session_frame_witness :
    assocLookup (clear_session ssBootstrapExample) "api_ready"
      = assocLookup ssBootstrapExample "api_ready"
    ∧ assocLookup (clear_session ssBootstrapExample) "junk" = none
    ∧ assocLookup (clear_session ssBootstrapExample) "authenticated"
      = some (Val.vbool false) :=
  ⟨(clear_session_frame ssBootstrapExample "api_ready").1 (by decide),
   (clear_session_frame ssBootstrapExample "junk").2.2.2.2.2.2 (by decide) (by decide),
   (clear_session_frame ssBootstrapExample "api_ready").2.1⟩

/-- C4: fail-open on network error: when the session is locally valid and
the remote call raises a request exception, `validate_session` returns
`True`, the only state change is the activity stamp, and the session
remains locally valid (not cleared, not downgraded). -/
theorem validate_session_fail_open (now : Int) (ss : SessionState)
    (h : is_session_valid now ss = true) :
    (validate_session now ss RemoteResult.netError).ok = true
    ∧ (validate_session now ss RemoteResult.netError).state = update_activity now ss
    ∧ is_session_valid now (validate_session now ss RemoteResult.netError).state = true := by
  have hres : (validate_session now ss RemoteResult.netError).ok = true
      ∧ (validate_session now ss RemoteResult.netError).state = update_activity now ss := by
    unfold validate_session
    rw [h]
    simp only [Bool.not_true, Bool.false_eq_true, if_false]
    split
    · exact ⟨rfl, rfl⟩
    · split
      · exact ⟨rfl, rfl⟩
      · exact ⟨rfl, rfl⟩
  refine ⟨hres.1, hres.2, ?_⟩
  rw [hres.2, is_session_valid_update_activity, h]

/-- Concrete locally-valid session state used by witnesses: authenticated,
with a real (non-dev-mock) token and a fresh login timestamp. -/
def ssLocallyValid : SessionState :=
  [("authenticated", Val.vbool true),
   ("auth_token", Val.vstr "fb-token-1"),
   ("user_info", Val.vobj [("email", "t@x.y"), ("role", "trainer")]),
   ("login_timestamp", Val.vtime 0),
   ("last_activity", Val.vtime 0)]

/-- Witness for C4 at a concrete locally-valid state. -/
theorem validate_session_fail_open_witness :
    (validate_session 10 ssLocallyValid RemoteResult.netError).ok = true
    ∧ (validate_session 10 ssLocallyValid RemoteResult.netError).state
      = update_activity 10 ssLocallyValid
    ∧ is_session_valid 10 (validate_session 10 ssLocallyValid RemoteResult.netError).state
      = true :=
  validate_session_fail_open 10 ssLocallyValid (by decide)

/-- C3: at a locally-valid session, a remote re-check answering HTTP 500 —
a server error, not an authorization failure — makes `validate_session`
clear the session and report not authenticated, contradicting the
only-401/403-invalidate policy stated by the spec and by the code's own
comment. -/
theorem validate_session_clears_on_500 :
    (validate_session 10 ssLocallyValid (RemoteResult.status 500)).ok = false
    ∧ ssGetD (validate_session 10 ssLocallyValid (RemoteResult.status 500)).state
        "authenticated" (Val.vbool false) = Val.vbool false
    ∧ (500 : Nat) ≠ 401 ∧ (500 : Nat) ≠ 403 := by decide

/-- Locally-valid state whose last backend validation lies one day and
100 seconds in the past. -/
def ssThrottleWrap : SessionState :=
  [("authenticated", Val.vbool true),
   ("auth_token", Val.vstr "fb-token-2"),
   ("user_info", Val.vobj [("email", "t@x.y")]),
   ("login_timestamp", Val.vtime 86000),
   ("last_activity", Val.vtime 86000),
   ("last_backend_validation", Val.vtime 0)]

/-- C7: with the last backend validation 86500 seconds (one day plus 100
seconds) in the past — far more than 300 seconds — `validate_session`
still skips the remote re-check and returns `True`, because the throttle
compares `timedelta.seconds` (the day-wrapped component, here 100) rather
than the total elapsed time. -/
theorem validate_session_rate_limit_day_wrap :
    (validate_session 86500 ssThrottleWrap (RemoteResult.status 200)).contacted = false
    ∧ (validate_session 86500 ssThrottleWrap (RemoteResult.status 200)).ok = true
    ∧ ((86500 : Int) - 0 ≥ 300) := by decide

theorem charsPrefix_append_self (l m : List Char) : charsPrefix l (l ++ m) = true := by
  induction l with
  | nil => rfl
  | cons c cs ih => simp [charsPrefix, ih]

theorem pyEndsWith_append_self (x suf : String) : pyEndsWith (x ++ suf) suf = true := by
  unfold pyEndsWith
  rw [String.data_append, List.reverse_append]
  exact charsPrefix_append_self suf.data.reverse x.data.reverse

theorem assocLookup_none_filter {α : Type} (p : (String × α) → Bool)
    (l : List (String × α)) (k : String) (h : assocLookup l k = none) :
    assocLookup (l.filter p) k = none := by
  induction l with
  | nil => rfl
  | cons e rest ih =>
    have he : ¬ e.1 = k := by
      intro hc
      simp [assocLookup, hc] at h
    have hrest : assocLookup rest k = none := by
      simpa [assocLookup, he] using h
    by_cases hp : p e
    · simp only [List.filter_cons_of_pos hp, assocLookup, if_neg he]
      exact ih hrest
    · simp only [List.filter_cons_of_neg (by simpa using hp)]
      exact ih hrest

theorem assocLookup_eq_none_of_not_mem {α : Type} (l : List (String × α)) (k : String)
    (h : k ∉ l.map Prod.fst) : assocLookup l k = none := by
  induction l with
  | nil => rfl
  | cons e rest ih =>
    have he : ¬ e.1 = k := fun hc => h (by simp [hc.symm])
    simp only [assocLookup, if_neg he]
    exact ih (fun hm => h (by simp [hm]))

theorem assocLookup_filter_entry {α : Type} (p : (String × α) → Bool)
    (l : List (String × α)) (k : String) (hnd : (l.map Prod.fst).Nodup) :
    assocLookup (l.filter p) k =
      match assocLookup l k with
      | some v => if p (k, v) then some v else none
      | none => none := by
  induction l with
  | nil => rfl
  | cons e rest ih =>
    have hndrest : (rest.map Prod.fst).Nodup := (List.nodup_cons.mp hnd).2
    have hnotin : e.1 ∉ rest.map Prod.fst := (List.nodup_cons.mp hnd).1
    by_cases he : e.1 = k
    · subst he
      have hrest : assocLookup rest e.1 = none :=
        assocLookup_eq_none_of_not_mem rest e.1 hnotin
      obtain ⟨k1, v1⟩ := e
      by_cases hp : p (k1, v1)
      · simp [List.filter_cons_of_pos hp, assocLookup, hp]
      · simp only [List.filter_cons_of_neg (by simpa using hp), assocLookup, if_pos rfl]
        rw [assocLookup_none_filter p rest k1 hrest]
        simp [hp]
    · by_cases hp : p e
      · simp only [List.filter_cons_of_pos hp, assocLookup, if_neg he]
        exact ih hndrest
      · simp only [List.filter_cons_of_neg (by simpa using hp), assocLookup, if_neg he]
        exact ih hndrest

/-- C5 counterexample: the dict returned by `load_session_persistent`
after a fresh `save_session_persistent` is the two-field
`\x7b"token", "user"\x7d` projection, not the stored four-field Session
Record (`created_at` and `expires_at` are not returned). -/
theorem load_persistent_projects_record_cex :
    (load_session_persistent 0
        (save_session_persistent 0 [] "sid1" "tok-1" [("id", "1")]) "sid1").1
      ≠ some (sessionDataDict 0 "tok-1" [("id", "1")])
    ∧ (load_session_persistent 0
        (save_session_persistent 0 [] "sid1" "tok-1" [("id", "1")]) "sid1").1
      = some [("token", Val.vstr "tok-1"), ("user", Val.vobj [("id", "1")])] := by
  decide

/-- C5 (amended): storing token and user claims under an identifier with
`save_session_persistent` (which stamps `created_at = now` and
`expires_at = now + 7 days`) and reading the identifier back with
`load_session_persistent` returns exactly the stored token and user
fields, for as long as `now' ≤ expires_at`. -/
theorem store_round_trip_token_user (now now' : Int) (store : Store) (sid tok : String)
    (u : List (String × String)) (h : now' ≤ now + SESSION_EXPIRY_SECONDS) :
    (load_session_persistent now' (save_session_persistent now store sid tok u) sid).1
      = some [("token", Val.vstr tok), ("user", Val.vobj u)] := by
  have hl : assocLookup (save_session_persistent now store sid tok u) (sessionFileName sid)
      = some (FileContent.json (sessionDataDict now tok u)) := by
    unfold save_session_persistent
    rw [assocLookup_setKey, if_pos rfl]
  have hdict : assocLookup (sessionDataDict now tok u) "expires_at"
      = some (Val.vtime (now + SESSION_EXPIRY_SECONDS)) := by
    simp [sessionDataDict, assocLookup]
  have htok : assocLookup (sessionDataDict now tok u) "token" = some (Val.vstr tok) := by
    simp [sessionDataDict, assocLookup]
  have huser : assocLookup (sessionDataDict now tok u) "user" = some (Val.vobj u) := by
    simp [sessionDataDict, assocLookup]
  simp only [load_session_persistent, hl, hdict, htok, huser]
  rw [if_neg (not_lt.mpr h)]

/-- Witness for the amended C5 round trip at a concrete store and time. -/
theorem store_round_trip_token_user_witness :
    (load_session_persistent 5
        (save_session_persistent 0 [] "sid1" "tok-1" [("id", "1")]) "sid1").1
      = some [("token", Val.vstr "tok-1"), ("user", Val.vobj [("id", "1")])] :=
  store_round_trip_token_user 0 5 [] "sid1" "tok-1" [("id", "1")] (by decide)

/-- C6: once `now` is past a stored record's `expires_at`, reading the
identifier returns absent and deletes the file, and the
`cleanup_expired_sessions` sweep also removes it; an expired record is
never handed to the caller.  The directory is assumed to hold one file
per name, as a filesystem does. -/
theorem expired_record_absent_and_removed (now : Int) (store : Store) (sid : String)
    (d : List (String × Val)) (e : Int)
    (hnd : (store.map Prod.fst).Nodup)
    (hmem : assocLookup store (sessionFileName sid) = some (FileContent.json d))
    (hexp : assocLookup d "expires_at" = some (Val.vtime e))
    (h : now > e) :
    (load_session_persistent now store sid).1 = none
    ∧ assocLookup (load_session_persistent now store sid).2 (sessionFileName sid) = none
    ∧ assocLookup (cleanup_expired_sessions now store) (sessionFileName sid) = none := by
  have hload : load_session_persistent now store sid
      = (none, eraseKey store (sessionFileName sid)) := by
    simp only [load_session_persistent, hmem, hexp]
    rw [if_pos h]
  refine ⟨by rw [hload], by rw [hload]; exact assocLookup_eraseKey_self _ _, ?_⟩
  unfold cleanup_expired_sessions
  rw [assocLookup_filter_entry _ _ _ hnd, hmem]
  have hsuffix : pyEndsWith (sessionFileName sid) ".json" = true :=
    pyEndsWith_append_self sid ".json"
  have hkeeps : cleanupKeeps now (FileContent.json d) = false := by
    simp [cleanupKeeps, hexp, h]
  simp [hsuffix, hkeeps]

/-- Concrete expired store used to witness C6: a single record whose
`expires_at` lies in the past. -/
def expiredStoreExample : Store :=
  [("sidA.json", FileContent.json (sessionDataDict 0 "tok-old" [("id", "9")]))]

/-- Witness for C6 at the concrete expired store, read one second after
the expiry window. -/
theorem expired_record_absent_and_removed_witness :
    (load_session_persistent 604801 expiredStoreExample "sidA").1 = none
    ∧ assocLookup (load_session_persistent 604801 expiredStoreExample "sidA").2
        (sessionFileName "sidA") = none
    ∧ assocLookup (cleanup_expired_sessions 604801 expiredStoreExample)
        (sessionFileName "sidA") = none :=
  expired_record_absent_and_removed 604801 expiredStoreExample "sidA"
    (sessionDataDict 0 "tok-old" [("id", "9")]) 604800
    (by decide) (by decide) (by decide) (by decide)

/-- C2 counterexample: during `save_session_persistent` the destination
file passes through the truncated state left by `open(file, 'w')` — a
present but empty file that does not parse as a Session Record, so a
concurrent reader can observe a partially-written record. -/
theorem save_persistent_torn_write_cex :
    FileContent.raw "" ∈ saveWriteTrace 0 "tok-1" [("id", "1")]
    ∧ parseStoredSession (FileContent.raw "") = none := by
  decide

/-- C2 (amended): `save_session_persistent` writes the destination file
in place (truncate, then incremental `json.dump`) with no temporary file
or rename, so intermediate states exist; every intermediate state fails
to parse (a reader treats it as corrupt/absent), and the final state is
the fully-populated record. -/
theorem save_persistent_write_trace (now : Int) (tok : String)
    (u : List (String × String)) :
    (saveWriteTrace now tok u).getLast? = some (FileContent.json (sessionDataDict now tok u))
    ∧ ∀ c ∈ saveWriteTrace now tok u,
        parseStoredSession c = none ∨ c = FileContent.json (sessionDataDict now tok u) := by
  constructor
  · unfold saveWriteTrace
    exact List.getLast?_concat _
  · intro c hc
    unfold saveWriteTrace at hc
    rcases List.mem_append.mp hc with hmap | hone
    · rcases List.mem_map.mp hmap with ⟨k, _, rfl⟩
      exact Or.inl rfl
    · right
      simpa using hone

/-- Witness for the amended C2 statement at a concrete record, checking
the truncated state and the final state of the trace. -/
theorem save_persistent_write_trace_witness :
    (saveWriteTrace 0 "tok-1" [("id", "1")]).getLast?
      = some (FileContent.json (sessionDataDict 0 "tok-1" [("id", "1")]))
    ∧ (parseStoredSession (FileContent.raw "") = none
        ∨ FileContent.raw "" = FileContent.json (sessionDataDict 0 "tok-1" [("id", "1")])) :=
  ⟨(save_persistent_write_trace 0 "tok-1" [("id", "1")]).1,
   (save_persistent_write_trace 0 "tok-1" [("id", "1")]).2 (FileContent.raw "") (by decide)⟩

theorem mem_insertByMtime (f g : CFile) (l : List CFile) :
    g ∈ insertByMtime f l ↔ g = f ∨ g ∈ l := by
  induction l with
  | nil => simp [insertByMtime]
  | cons h rest ih =>
    unfold insertByMtime
    by_cases hm : f.mtime ≥ h.mtime
    · rw [if_pos hm]
      simp only [List.mem_cons]
    · rw [if_neg hm]
      simp only [List.mem_cons, ih]
      tauto

theorem mem_sortByMtimeDesc (l : List CFile) (g : CFile) :
    g ∈ sortByMtimeDesc l ↔ g ∈ l := by
  induction l with
  | nil => simp [sortByMtimeDesc]
  | cons f rest ih =>
    show g ∈ insertByMtime f (sortByMtimeDesc rest) ↔ _
    rw [mem_insertByMtime]
    simp only [List.mem_cons, ih]

theorem restoreLoop_fst (now : Int) (ss : SessionState) (l : List CFile) :
    (restoreLoop now ss l).1 = l.any (fun f => restoreAccepts now f.content) := by
  induction l with
  | nil => rfl
  | cons f rest ih =>
    obtain ⟨sid, c, mt⟩ := f
    cases c with
    | raw str =>
      have hloop : restoreLoop now ss (⟨sid, FileContent.raw str, mt⟩ :: rest)
          = restoreLoop now ss rest := by
        simp [restoreLoop]
      have hacc : restoreAccepts now (FileContent.raw str) = false := rfl
      rw [hloop, List.any_cons, hacc, ih]
      simp
    | json d =>
      rcases hE : assocLookup d "expires_at" with _ | v
      · have hloop : restoreLoop now ss (⟨sid, FileContent.json d, mt⟩ :: rest)
            = restoreLoop now ss rest := by
          simp [restoreLoop, hE]
        have hacc : restoreAccepts now (FileContent.json d) = false := by
          simp [restoreAccepts, hE]
        rw [hloop, List.any_cons, hacc, ih]
        simp
      · cases v with
        | vtime e =>
          by_cases hexp : now > e
          · have hloop : restoreLoop now ss (⟨sid, FileContent.json d, mt⟩ :: rest)
                = restoreLoop now ss rest := by
              simp [restoreLoop, hE, hexp]
            have hacc : restoreAccepts now (FileContent.json d) = false := by
              simp [restoreAccepts, hE, hexp]
            rw [hloop, List.any_cons, hacc, ih]
            simp
          · rcases hT : assocLookup d "token" with _ | tok
            · have hloop : restoreLoop now ss (⟨sid, FileContent.json d, mt⟩ :: rest)
                  = restoreLoop now ss rest := by
                simp [restoreLoop, hE, hexp, hT]
              have hacc : restoreAccepts now (FileContent.json d) = false := by
                simp [restoreAccepts, hE, hexp, hT]
              rw [hloop, List.any_cons, hacc, ih]
              simp
            · rcases hU : assocLookup d "user" with _ | u
              · have hloop : restoreLoop now ss (⟨sid, FileContent.json d, mt⟩ :: rest)
                    = restoreLoop now ss rest := by
                  simp [restoreLoop, hE, hexp, hT, hU]
                have hacc : restoreAccepts now (FileContent.json d) = false := by
                  simp [restoreAccepts, hE, hexp, hT, hU]
                rw [hloop, List.any_cons, hacc, ih]
                simp
              · have hloop : (restoreLoop now ss (⟨sid, FileContent.json d, mt⟩ :: rest)).1
                    = true := by
                  simp [restoreLoop, hE, hexp, hT, hU]
                have hacc : restoreAccepts now (FileContent.json d) = true := by
                  simp [restoreAccepts, hE, hexp, hT, hU]
                rw [hloop, List.any_cons, hacc]
                simp
        | vbool b =>
          have hloop : restoreLoop now ss (⟨sid, FileContent.json d, mt⟩ :: rest)
              = restoreLoop now ss rest := by
            simp [restoreLoop, hE]
          have hacc : restoreAccepts now (FileContent.json d) = false := by
            simp [restoreAccepts, hE]
          rw [hloop, List.any_cons, hacc, ih]
          simp
        | vstr str =>
          have hloop : restoreLoop now ss (⟨sid, FileContent.json d, mt⟩ :: rest)
              = restoreLoop now ss rest := by
            simp [restoreLoop, hE]
          have hacc : restoreAccepts now (FileContent.json d) = false := by
            simp [restoreAccepts, hE]
          rw [hloop, List.any_cons, hacc, ih]
          simp
        | vnone =>
          have hloop : restoreLoop now ss (⟨sid, FileContent.json d, mt⟩ :: rest)
              = restoreLoop now ss rest := by
            simp [restoreLoop, hE]
          have hacc : restoreAccepts now (FileContent.json d) = false := by
            simp [restoreAccepts, hE]
          rw [hloop, List.any_cons, hacc, ih]
          simp
        | vobj o =>
          have hloop : restoreLoop now ss (⟨sid, FileContent.json d, mt⟩ :: rest)
              = restoreLoop now ss rest := by
            simp [restoreLoop, hE]
          have hacc : restoreAccepts now (FileContent.json d) = false := by
            simp [restoreAccepts, hE]
          rw [hloop, List.any_cons, hacc, ih]
          simp
        | vext n =>
          have hloop : restoreLoop now ss (⟨sid, FileContent.json d, mt⟩ :: rest)
              = restoreLoop now ss rest := by
            simp [restoreLoop, hE]
          have hacc : restoreAccepts now (FileContent.json d) = false := by
            simp [restoreAccepts, hE]
          rw [hloop, List.any_cons, hacc, ih]
          simp

/-- Session state in which the resolved identifier `temp_aaaaaaaaaaaa` is
cached but the user is not authenticated. -/
def resolvedCacheExample : SessionState :=
  [("cookie_session_id", Val.vstr "temp_aaaaaaaaaaaa")]

/-- A directory holding one valid record, stored under the identifier
`sess_bbb` — not under the resolved identifier. -/
def otherSidDirExample : List CFile :=
  [⟨"sess_bbb", FileContent.json (sessionDataDict 0 "tok-B" [("id", "7")]), 5⟩]

/-- C1 counterexample: with identifier `temp_aaaaaaaaaaaa` resolved and
cached, and the Store holding a valid record only under the different
identifier `sess_bbb`, `restore_auth_cookie_storage` still hydrates: it
returns `True`, installs `sess_bbb`'s token, and rebinds the cached
identifier to `sess_bbb` — a record stored under a different identifier. -/
theorem restore_cookie_ignores_identifier_cex :
    ((restore_auth_cookie_storage 1 resolvedCacheExample otherSidDirExample).1 = true)
    ∧ assocLookup resolvedCacheExample "cookie_session_id"
      = some (Val.vstr "temp_aaaaaaaaaaaa")
    ∧ (∀ f ∈ otherSidDirExample, f.sid ≠ "temp_aaaaaaaaaaaa")
    ∧ assocLookup (restore_auth_cookie_storage 1 resolvedCacheExample otherSidDirExample).2.1
        "cookie_session_id" = some (Val.vstr "sess_bbb")
    ∧ ssGetD (restore_auth_cookie_storage 1 resolvedCacheExample otherSidDirExample).2.1
        "auth_token" Val.vnone = Val.vstr "tok-B" := by
  decide

/-- C1 (amended): `restore_auth_cookie_storage` is not bound to the
resolved identifier: when the cache is not authenticated, hydration
succeeds exactly when the Store holds some valid (parseable, unexpired,
fully-keyed) record under any identifier; the record installed is the
most recently modified valid one and the cached identifier is rebound to
that record's identifier. -/
theorem restore_cookie_hydrates_any_valid (now : Int) (ss : SessionState) (dir : List CFile)
    (h : truthy (ssGetD ss "authenticated" (Val.vbool false)) = false) :
    ((restore_auth_cookie_storage now ss dir).1 = true
      ↔ ∃ f ∈ dir, restoreAccepts now f.content = true) := by
  unfold restore_auth_cookie_storage
  rw [h]
  simp only [Bool.false_eq_true, if_false]
  rw [restoreLoop_fst]
  simp only [List.any_eq_true, mem_sortByMtimeDesc]

/-- Witness for the amended C1 statement at the concrete store above. -/
theorem restore_cookie_hydrates_any_valid_witness :
    ((restore_auth_cookie_storage 1 resolvedCacheExample otherSidDirExample).1 = true
      ↔ ∃ f ∈ otherSidDirExample, restoreAccepts 1 f.content = true) :=
  restore_cookie_hydrates_any_valid 1 resolvedCacheExample otherSidDirExample (by decide)

/-- C8: with the identifier resolved from the URL's `sid` parameter and a
record stored under it, logging out via `clear_auth_url_session` leaves
the Store without a record for that identifier and the in-memory
authenticated flag false — before any new identifier resolution. -/
theorem logout_completeness_url (ss : SessionState) (qp : QueryParams) (store : Store)
    (sid : String) (c : FileContent)
    (hsid : assocLookup qp "sid" = some sid)
    (hrec : assocLookup store (urlSessionFileName sid) = some c) :
    assocLookup (clear_auth_url_session ss qp store).store (urlSessionFileName sid) = none
    ∧ assocLookup (clear_auth_url_session ss qp store).state "authenticated"
      = some (Val.vbool false) := by
  constructor
  · simp only [clear_auth_url_session, hsid]
    exact assocLookup_eraseKey_self _ _
  · simp only [clear_auth_url_session]
    exact clear_session_lookup_default ss ("authenticated", Val.vbool false) (by decide)

/-- Store of the URL variant holding a record under identifier `abc123`. -/
def urlStoreExample : Store :=
  [("sess_abc123.json", FileContent.json (sessionDataDict 0 "tok-U" [("id", "2")]))]

/-- Witness for C8 at a concrete resolved identifier and store. -/
theorem logout_completeness_url_witness :
    assocLookup (clear_auth_url_session ssLocallyValid [("sid", "abc123")] urlStoreExample).store
      (urlSessionFileName "abc123") = none
    ∧ assocLookup (clear_auth_url_session ssLocallyValid [("sid", "abc123")] urlStoreExample).state
      "authenticated" = some (Val.vbool false) :=
  logout_completeness_url ssLocallyValid [("sid", "abc123")] urlStoreExample "abc123"
    (FileContent.json (sessionDataDict 0 "tok-U" [("id", "2")])) (by decide) (by decide)

/-- C9: the Python-side result of `_get_session_id_from_cookie` does not
depend on the browser cookie: two runs differing only in the `pimba_sid`
cookie return the same value, and when no identifier is cached in
`st.session_state` the returned identifier is the freshly minted
`temp_`-prefixed one. -/
theorem cookie_resolver_independent_of_cookie (c1 c2 : Option String) (ss : SessionState)
    (uuidHex : String) (h : assocLookup ss "cookie_session_id" = none) :
    get_session_id_from_cookie c1 ss uuidHex = get_session_id_from_cookie c2 ss uuidHex
    ∧ (get_session_id_from_cookie c1 ss uuidHex).1
      = Val.vstr ("temp_" ++ takeChars 12 uuidHex) := by
  constructor
  · rfl
  · simp only [get_session_id_from_cookie, h]

/-- Witness for C9: two different cookie contents, an empty cache, and a
concrete uuid hex string. -/
theorem cookie_resolver_independent_of_cookie_witness :
    get_session_id_from_cookie (some "sess_12345") [] "abcdef0123456789"
      = get_session_id_from_cookie none [] "abcdef0123456789"
    ∧ (get_session_id_from_cookie (some "sess_12345") [] "abcdef0123456789").1
      = Val.vstr ("temp_" ++ takeChars 12 "abcdef0123456789") :=
  cookie_resolver_independent_of_cookie (some "sess_12345") none [] "abcdef0123456789" rfl
